import Mathlib

/-!
Verification of the `nuxt-sidebase-parse` extraction-validation adapter
(`packages/nuxt-sidebase-parse/src/index.ts`) as a shallow embedding.

Modelling conventions:
* JavaScript values handled by the adapter are `JsValue`.
* A zod schema is used by the adapter only through `schema.parse`, which either
  returns the validated/coerced value or throws a structured `ZodError`; we
  model a schema as a function `JsValue → Except ZodError JsValue`.
* `createError({statusCode, statusMessage, data})` builds an `H3Error`; the
  source attaches the schema failure under the `data` field.
* A thrown exception is an `Err`: either an `H3Error` (thrown via
  `createError`) or an opaque extraction/rejection failure (`Err.ext`).
* An `async function` returns a promise; a plain function returns its value or
  throws synchronously. `JsReturn` records this distinction together with the
  outcome.
* A JavaScript default parameter (`errorCode = 422`) triggers exactly when the
  argument is omitted / `undefined`; we model such parameters as `Option` and
  resolve them with `Option.getD`.
* The `x || y` fallback in `makeParser` treats `0` and `""` as falsy; `jsOrNat`
  and `jsOrStr` embed that operator.
-/

/-- A JavaScript value, as far as the adapter observes it. -/
inductive JsValue : Type
  | null : JsValue
  | undef : JsValue
  | boolean : Bool → JsValue
  | num : Int → JsValue
  | str : String → JsValue
  | obj : List (String × JsValue) → JsValue

/-- The structured failure a zod schema throws on mismatch: a full diagnostic
object (modelled by its list of issues), not just a message string. -/
structure ZodError : Type where
  issues : List String
deriving DecidableEq

/-- A zod schema, seen through the only capability the adapter uses:
`schema.parse` either returns the validated/coerced value or throws a
`ZodError`. -/
def Schema : Type := JsValue → Except ZodError JsValue

/-- The error object built by h3's `createError({statusCode, statusMessage,
data})`.  The source passes the caught schema failure as the `data` field. -/
structure H3Error : Type where
  statusCode : Nat
  statusMessage : String
  data : ZodError
deriving DecidableEq

/-- A thrown JavaScript exception: an `H3Error` thrown by `createError`, or any
other failure (extraction error, promise rejection), kept opaque. -/
inductive Err : Type
  | h3 : H3Error → Err
  | ext : String → Err

/-- The result of calling a JavaScript function: an `async function` returns a
promise (which resolves or rejects); a plain function returns a value or
throws synchronously. -/
inductive JsReturn (α : Type) : Type
  | sync : Except Err α → JsReturn α
  | promise : Except Err α → JsReturn α

/-- Whether a call produced a promise (true for `async` functions). -/
def JsReturn.isPromise : JsReturn JsValue → Bool
  | .sync _ => false
  | .promise _ => true

/-- An h3 `CompatibilityEvent`, seen through the accessors the adapter uses:
`readBody` (asynchronous, may fail), `event.context.params`, `getQuery`,
`getHeaders`, `parseCookies`. -/
structure CompatibilityEvent : Type where
  readBodyResult : Except Err JsValue
  params : JsValue
  query : JsValue
  headers : JsValue
  cookies : JsValue

/-- `const apiValidateWithSchema = (data, schema, statusCode, statusMessage) =>
{ try { return schema.parse(data) } catch (error) { throw createError({
statusCode, statusMessage, data: error }) } }`. -/
def apiValidateWithSchema (data : JsValue) (schema : Schema)
    (statusCode : Nat) (statusMessage : String) : Except Err JsValue :=
  match schema data with
  | .ok v => .ok v
  | .error e => .error (.h3 ⟨statusCode, statusMessage, e⟩)

/-- `async function parseBodyAs(event, schema, errorCode = 422,
errorMessage = "Body validation failed")`: awaits `readBody(event)` (a failure
there rejects the returned promise unchanged), then validates. -/
def parseBodyAs (event : CompatibilityEvent) (schema : Schema)
    (errorCode : Option Nat) (errorMessage : Option String) : JsReturn JsValue :=
  .promise (event.readBodyResult >>= fun data =>
    apiValidateWithSchema data schema (errorCode.getD 422)
      (errorMessage.getD "Body validation failed"))

/-- `function parseParamsAs(event, schema, errorCode = 422,
errorMessage = "Query validation failed")`: reads `event.context.params` and
validates; not `async`, so it returns (or throws) synchronously. -/
def parseParamsAs (event : CompatibilityEvent) (schema : Schema)
    (errorCode : Option Nat) (errorMessage : Option String) : JsReturn JsValue :=
  .sync (apiValidateWithSchema event.params schema (errorCode.getD 422)
    (errorMessage.getD "Query validation failed"))

/-- `function parseQueryAs(event, schema, errorCode = 422,
errorMessage = "Query validation failed")`: reads `getQuery(event)` and
validates; not `async`. -/
def parseQueryAs (event : CompatibilityEvent) (schema : Schema)
    (errorCode : Option Nat) (errorMessage : Option String) : JsReturn JsValue :=
  .sync (apiValidateWithSchema event.query schema (errorCode.getD 422)
    (errorMessage.getD "Query validation failed"))

/-- `function parseCookieAs(event, schema, errorCode = 422,
errorMessage = "Query validation failed")`: reads `parseCookies(event)` and
validates; not `async`. -/
def parseCookieAs (event : CompatibilityEvent) (schema : Schema)
    (errorCode : Option Nat) (errorMessage : Option String) : JsReturn JsValue :=
  .sync (apiValidateWithSchema event.cookies schema (errorCode.getD 422)
    (errorMessage.getD "Query validation failed"))

/-- `function parseHeaderAs(event, schema, errorCode = 422,
errorMessage = "Query validation failed")`: reads `getHeaders(event)` and
validates; not `async`. -/
def parseHeaderAs (event : CompatibilityEvent) (schema : Schema)
    (errorCode : Option Nat) (errorMessage : Option String) : JsReturn JsValue :=
  .sync (apiValidateWithSchema event.headers schema (errorCode.getD 422)
    (errorMessage.getD "Query validation failed"))

/-- The first argument of `parseDataAs` and of the validators produced by
`makeParser`: a plain value or a promise (which may reject). -/
inductive DataOrPromise : Type
  | plain : JsValue → DataOrPromise
  | future : Except Err JsValue → DataOrPromise

/-- `await dataOrPromise`: a plain value passes through, a promise yields its
resolution or throws its rejection. -/
def awaitData : DataOrPromise → Except Err JsValue
  | .plain v => .ok v
  | .future r => r

/-- `async function parseDataAs(dataOrPromise, schema, errorCode = 422,
errorMessage = "Data validation failed")`: awaits its first argument, then
validates. -/
def parseDataAs (dataOrPromise : DataOrPromise) (schema : Schema)
    (errorCode : Option Nat) (errorMessage : Option String) : JsReturn JsValue :=
  .promise (awaitData dataOrPromise >>= fun data =>
    apiValidateWithSchema data schema (errorCode.getD 422)
      (errorMessage.getD "Data validation failed"))

/-- JavaScript `o || d` on a possibly-omitted number: `undefined` and `0` are
falsy and fall back to `d`. -/
def jsOrNat (o : Option Nat) (d : Nat) : Nat :=
  match o with
  | none => d
  | some v => if v = 0 then d else v

/-- JavaScript `o || d` on a possibly-omitted string: `undefined` and `""` are
falsy and fall back to `d`. -/
def jsOrStr (o : Option String) (d : String) : String :=
  match o with
  | none => d
  | some s => if s = "" then d else s

/-- `function makeParser(schema, errorCode = 422, errorMessage = "Data
validation failed") { return async (data, errorCodeOverwrite = undefined,
errorMessageOverwrite = undefined) => apiValidateWithSchema(await data, schema,
errorCodeOverwrite || errorCode, errorMessageOverwrite || errorMessage) }`. -/
def makeParser (schema : Schema) (errorCode : Option Nat)
    (errorMessage : Option String) :
    DataOrPromise → Option Nat → Option String → JsReturn JsValue :=
  let code := errorCode.getD 422
  let message := errorMessage.getD "Data validation failed"
  fun data errorCodeOverwrite errorMessageOverwrite =>
    .promise (awaitData data >>= fun d =>
      apiValidateWithSchema d schema (jsOrNat errorCodeOverwrite code)
        (jsOrStr errorMessageOverwrite message))

/-- The module's export list (`export { parseBodyAs, parseParamsAs,
parseQueryAs, parseCookieAs, parseHeaderAs, parseDataAs, makeParser, z }`). -/
def moduleExports : List String :=
  ["parseBodyAs", "parseParamsAs", "parseQueryAs", "parseCookieAs",
   "parseHeaderAs", "parseDataAs", "makeParser", "z"]

/-- Decimal value of a digit character, `none` for non-digits. -/
def charDigit (c : Char) : Option Nat :=
  if c.isDigit then some (c.toNat - 48) else none

/-- Accumulate the decimal value of a digit list, `none` on a non-digit. -/
def digitsVal : List Char → Nat → Option Nat
  | [], acc => some acc
  | c :: rest, acc =>
      match charDigit c with
      | some d => digitsVal rest (acc * 10 + d)
      | none => none

/-- Numeric value of a non-empty all-digit string, `none` otherwise. -/
def decimalVal (s : String) : Option Nat :=
  match s.data with
  | [] => none
  | cs => digitsVal cs 0

/-- A concrete coercing schema for witnesses: an object `{test: <numeric
string>}` is coerced to `{test: <number>}`, a numeric `test` passes through,
anything else fails with a structured diagnostic. -/
def coerceTestToNumber : Schema := fun v =>
  match v with
  | .obj [("test", .str s)] =>
      match decimalVal s with
      | some n => .ok (.obj [("test", .num (Int.ofNat n))])
      | none => .error ⟨["test: expected number, received string"]⟩
  | .obj [("test", .num n)] => .ok (.obj [("test", .num n)])
  | _ => .error ⟨["invalid input shape"]⟩

/-- A schema that rejects every value, for failure-path witnesses. -/
def rejectAll : Schema := fun _ => .error ⟨["always fails"]⟩

/-- A concrete event whose every source holds `{test: "no"}`, which
`coerceTestToNumber` rejects. -/
def sampleBadEvent : CompatibilityEvent :=
  ⟨.ok (JsValue.obj [("test", JsValue.str "no")]),
   JsValue.obj [("test", JsValue.str "no")],
   JsValue.obj [("test", JsValue.str "no")],
   JsValue.obj [("test", JsValue.str "no")],
   JsValue.obj [("test", JsValue.str "no")]⟩

/-- Bind on a resolved `Except` applies the continuation (the `await` of a
resolved step continues the function body). -/
theorem jsOkBind (a : JsValue) (f : JsValue → Except Err JsValue) :
    (Except.ok a >>= f) = f a := rfl

/-- Bind on a failed `Except` propagates the failure (the `await` of a failed
step aborts the function body with that failure). -/
theorem jsErrorBind (err : Err) (f : JsValue → Except Err JsValue) :
    ((Except.error err : Except Err JsValue) >>= f) = Except.error err := rfl

/-- C1: whenever the schema's validation of `data` succeeds with value `v`,
`apiValidateWithSchema` returns exactly `v` (identity with the schema engine's
own output, coercion included), and so does `parseDataAs` built on it. -/
theorem c1_success_identity (data : JsValue) (schema : Schema)
    (code : Nat) (msg : String) (v : JsValue)
    (h : schema data = .ok v) :
    apiValidateWithSchema data schema code msg = .ok v ∧
    parseDataAs (.plain data) schema (some code) (some msg) = .promise (.ok v) := by
  constructor
  · unfold apiValidateWithSchema
    rw [h]
  · unfold parseDataAs awaitData
    show JsReturn.promise (apiValidateWithSchema data schema code msg) = _
    unfold apiValidateWithSchema
    rw [h]

/-- C1 witness: the coercing schema turns `{test: "1"}` into `{test: 1}` and
the gate returns that coerced value unchanged. -/
theorem c1_success_identity_witness :
    coerceTestToNumber (.obj [("test", .str "1")]) =
      .ok (.obj [("test", .num 1)]) ∧
    apiValidateWithSchema (.obj [("test", .str "1")]) coerceTestToNumber
      422 "Data validation failed" = .ok (.obj [("test", .num 1)]) :=
  ⟨rfl, (c1_success_identity (.obj [("test", .str "1")]) coerceTestToNumber
    422 "Data validation failed" (.obj [("test", .num 1)]) rfl).1⟩

/-- C2: whenever the schema's validation of `data` fails with diagnostic `e`,
`apiValidateWithSchema` throws exactly one `H3Error` whose `statusCode` is the
supplied code, whose `statusMessage` is the supplied message, and which carries
the schema engine's full structured failure `e` (attached as the error's
`data` field). -/
theorem c2_failure_normalization (data : JsValue) (schema : Schema)
    (code : Nat) (msg : String) (e : ZodError)
    (h : schema data = .error e) :
    apiValidateWithSchema data schema code msg = .error (.h3 ⟨code, msg, e⟩) := by
  unfold apiValidateWithSchema
  rw [h]

/-- C2 witness: validating `{test: "no"}` with the coercing schema throws a
422 error carrying the schema's diagnostic. -/
theorem c2_failure_normalization_witness :
    coerceTestToNumber (.obj [("test", .str "no")]) =
      .error ⟨["test: expected number, received string"]⟩ ∧
    apiValidateWithSchema (.obj [("test", .str "no")]) coerceTestToNumber
      422 "Data validation failed" =
      .error (.h3 ⟨422, "Data validation failed",
        ⟨["test: expected number, received string"]⟩⟩) :=
  ⟨rfl, c2_failure_normalization (.obj [("test", .str "no")]) coerceTestToNumber
    422 "Data validation failed" ⟨["test: expected number, received string"]⟩ rfl⟩

/-- C3 counterexample: with code and message omitted, a body validation
failure raises statusMessage "Body validation failed", not the claimed
"Data validation failed". -/
theorem c3_default_message_counterexample :
    parseBodyAs sampleBadEvent coerceTestToNumber none none =
      .promise (.error (.h3 ⟨422, "Body validation failed",
        ⟨["test: expected number, received string"]⟩⟩)) ∧
    "Body validation failed" ≠ "Data validation failed" :=
  ⟨rfl, by decide⟩

/-- C3 amended: with code and message omitted, every extractor defaults the
status code to 422, but the default message is "Body validation failed" for
`parseBodyAs`, "Query validation failed" for `parseParamsAs`, `parseQueryAs`,
`parseCookieAs` and `parseHeaderAs`, and "Data validation failed" only for
`parseDataAs` and the validators made by `makeParser`. -/
theorem c3_default_code_and_messages (event : CompatibilityEvent)
    (body d : JsValue) (schema : Schema) (e : ZodError)
    (hb : event.readBodyResult = .ok body)
    (h : ∀ v, schema v = .error e) :
    parseBodyAs event schema none none =
      .promise (.error (.h3 ⟨422, "Body validation failed", e⟩)) ∧
    parseParamsAs event schema none none =
      .sync (.error (.h3 ⟨422, "Query validation failed", e⟩)) ∧
    parseQueryAs event schema none none =
      .sync (.error (.h3 ⟨422, "Query validation failed", e⟩)) ∧
    parseCookieAs event schema none none =
      .sync (.error (.h3 ⟨422, "Query validation failed", e⟩)) ∧
    parseHeaderAs event schema none none =
      .sync (.error (.h3 ⟨422, "Query validation failed", e⟩)) ∧
    parseDataAs (.plain d) schema none none =
      .promise (.error (.h3 ⟨422, "Data validation failed", e⟩)) ∧
    makeParser schema none none (.plain d) none none =
      .promise (.error (.h3 ⟨422, "Data validation failed", e⟩)) := by
  refine ⟨?_, ?_, ?_, ?_, ?_, ?_, ?_⟩ <;>
    simp [parseBodyAs, parseParamsAs, parseQueryAs, parseCookieAs,
      parseHeaderAs, parseDataAs, makeParser, awaitData, jsOrNat, jsOrStr,
      apiValidateWithSchema, jsOkBind, hb, h]

/-- C3 amended witness: a concrete event and an always-failing schema exhibit
the seven default code/message pairs. -/
theorem c3_default_code_and_messages_witness :
    sampleBadEvent.readBodyResult = .ok (.obj [("test", .str "no")]) ∧
    (∀ v, rejectAll v = .error ⟨["always fails"]⟩) ∧
    parseBodyAs sampleBadEvent rejectAll none none =
      .promise (.error (.h3 ⟨422, "Body validation failed",
        ⟨["always fails"]⟩⟩)) :=
  ⟨rfl, fun _ => rfl,
    (c3_default_code_and_messages sampleBadEvent (.obj [("test", .str "no")])
      .null rejectAll ⟨["always fails"]⟩ rfl (fun _ => rfl)).1⟩

/-- C4: a failure of the extraction step propagates to the caller unchanged —
a rejecting `readBody` makes `parseBodyAs` reject with that very error (no
wrapping into an `H3Error`, no status code assigned), and a rejecting promise
given to `parseDataAs` likewise rejects the call with the original error. -/
theorem c4_extraction_failure_propagates (event : CompatibilityEvent)
    (schema : Schema) (code : Option Nat) (msg : Option String) (err : Err)
    (h : event.readBodyResult = .error err) :
    parseBodyAs event schema code msg = .promise (.error err) ∧
    parseDataAs (.future (.error err)) schema code msg =
      .promise (.error err) := by
  constructor
  · simp [parseBodyAs, jsErrorBind, h]
  · simp [parseDataAs, awaitData, jsErrorBind]

/-- C4 witness: a concrete malformed-payload error surfaces unchanged from
both `parseBodyAs` and `parseDataAs`. -/
theorem c4_extraction_failure_propagates_witness :
    (CompatibilityEvent.mk (.error (.ext "malformed payload"))
        .null .null .null .null).readBodyResult =
      .error (.ext "malformed payload") ∧
    parseBodyAs
      (CompatibilityEvent.mk (.error (.ext "malformed payload"))
        .null .null .null .null)
      coerceTestToNumber none none =
      .promise (.error (.ext "malformed payload")) :=
  ⟨rfl,
    (c4_extraction_failure_propagates
      (CompatibilityEvent.mk (.error (.ext "malformed payload"))
        .null .null .null .null)
      coerceTestToNumber none none (.ext "malformed payload") rfl).1⟩

/-- C5: a per-call override pair on a `makeParser` validator wins over the
factory-bound defaults for that call only — with bound defaults 422/"X",
overrides 500/"Y" produce a 500/"Y" error, and the same validator called
again without overrides still produces 422/"X". -/
theorem c5_override_precedence (schema : Schema) (d : JsValue) (e : ZodError)
    (h : schema d = .error e) :
    makeParser schema (some 422) (some "X") (.plain d) (some 500) (some "Y") =
      .promise (.error (.h3 ⟨500, "Y", e⟩)) ∧
    makeParser schema (some 422) (some "X") (.plain d) none none =
      .promise (.error (.h3 ⟨422, "X", e⟩)) := by
  constructor <;>
    simp [makeParser, awaitData, jsOrNat, jsOrStr, apiValidateWithSchema,
      jsOkBind, h]

/-- C5 witness: the always-failing schema exhibits override precedence and the
unchanged bound defaults at a concrete input. -/
theorem c5_override_precedence_witness :
    rejectAll .null = .error ⟨["always fails"]⟩ ∧
    makeParser rejectAll (some 422) (some "X") (.plain .null)
        (some 500) (some "Y") =
      .promise (.error (.h3 ⟨500, "Y", ⟨["always fails"]⟩⟩)) :=
  ⟨rfl, (c5_override_precedence rejectAll .null ⟨["always fails"]⟩ rfl).1⟩

/-- C6 counterexample: the module's export list contains no
`parseDataPromiseAs` operation. -/
theorem c6_no_parse_data_promise_as_export :
    "parseDataPromiseAs" ∉ moduleExports := by decide

/-- C6 amended: there is no separate `parseDataPromiseAs`; the exported
`parseDataAs` serves future values, and applied to a promise resolving to
`{test: "1"}` with the string-to-number coercing schema it resolves to
`{test: 1}` with a numeric value — coercion survives the asynchronous path. -/
theorem c6_async_coercion_via_parse_data_as :
    "parseDataAs" ∈ moduleExports ∧
    parseDataAs (.future (.ok (.obj [("test", .str "1")])))
        coerceTestToNumber none none =
      .promise (.ok (.obj [("test", .num 1)])) :=
  ⟨by decide, rfl⟩

/-- C7 counterexample: `parseParamsAs` at a concrete event does not return a
promise — it is not an `async function` and yields its result synchronously. -/
theorem c7_params_not_promise :
    (parseParamsAs sampleBadEvent coerceTestToNumber none none).isPromise
      = false := rfl

/-- C7 amended: all extractors share the argument signature
`(sourceHandle, schema, statusCode?, statusMessage?)`, but only `parseBodyAs`,
`parseDataAs` and the validators made by `makeParser` return promises;
`parseParamsAs`, `parseQueryAs`, `parseCookieAs` and `parseHeaderAs` return
the validated result (or throw) synchronously. -/
theorem c7_return_kinds (event : CompatibilityEvent) (schema : Schema)
    (code : Option Nat) (msg : Option String) (d : DataOrPromise) :
    (parseBodyAs event schema code msg).isPromise = true ∧
    (parseDataAs d schema code msg).isPromise = true ∧
    (makeParser schema code msg d none none).isPromise = true ∧
    (parseParamsAs event schema code msg).isPromise = false ∧
    (parseQueryAs event schema code msg).isPromise = false ∧
    (parseCookieAs event schema code msg).isPromise = false ∧
    (parseHeaderAs event schema code msg).isPromise = false :=
  ⟨rfl, rfl, rfl, rfl, rfl, rfl, rfl⟩

/-- C8: `makeParser` is pure — constructing a validator twice from the same
schema and defaults yields functions that agree on every input and every
override pair (in the embedding the two constructions are the same function;
the source closes only over its immutable arguments and performs no side
effect). -/
theorem c8_factory_idempotent (schema : Schema) (code : Option Nat)
    (msg : Option String) (d : DataOrPromise) (o1 : Option Nat)
    (o2 : Option String) :
    makeParser schema code msg d o1 o2 = makeParser schema code msg d o1 o2 :=
  rfl

/-- C9: because overrides are resolved with `||`, a falsy override (status
code `0`, empty message) is treated as absent: the validator falls back to the
factory-bound default for that field, and when the bound defaults are nonzero
and non-empty no override pair can produce a zero status code or an empty
message. -/
theorem c9_falsy_override_fallback (schema : Schema) (d : JsValue)
    (e : ZodError) (c : Nat) (m : String)
    (h : schema d = .error e) (hc : c ≠ 0) (hm : m ≠ "") :
    makeParser schema (some c) (some m) (.plain d) (some 0) (some "") =
      .promise (.error (.h3 ⟨c, m, e⟩)) ∧
    (∀ o : Option Nat, jsOrNat o c ≠ 0) ∧
    (∀ o : Option String, jsOrStr o m ≠ "") := by
  refine ⟨?_, ?_, ?_⟩
  · simp [makeParser, awaitData, jsOrNat, jsOrStr, apiValidateWithSchema,
      jsOkBind, h]
  · intro o
    cases o with
    | none => simpa [jsOrNat] using hc
    | some v =>
        by_cases hv : v = 0
        · simpa [jsOrNat, hv] using hc
        · simp [jsOrNat, hv]
  · intro o
    cases o with
    | none => simpa [jsOrStr] using hm
    | some s =>
        by_cases hs : s = ""
        · simpa [jsOrStr, hs] using hm
        · simp [jsOrStr, hs]

/-- C9 witness: with bound defaults 422/"X", overrides `0` and `""` fall back
to 422/"X" at a concrete failing input. -/
theorem c9_falsy_override_fallback_witness :
    rejectAll .null = .error ⟨["always fails"]⟩ ∧ (422 : Nat) ≠ 0 ∧
    "X" ≠ "" ∧
    makeParser rejectAll (some 422) (some "X") (.plain .null)
        (some 0) (some "") =
      .promise (.error (.h3 ⟨422, "X", ⟨["always fails"]⟩⟩)) :=
  ⟨rfl, by decide, by decide,
    (c9_falsy_override_fallback rejectAll .null ⟨["always fails"]⟩ 422 "X"
      rfl (by decide) (by decide)).1⟩

/-- C10: for a plain (non-promise) value `v`, `parseDataAs` behaves exactly as
on `Promise.resolve(v)` — the single operation silently awaits its first
argument, so plain values and resolved futures of them are indistinguishable
to the caller. -/
theorem c10_plain_equals_resolved_promise (v : JsValue) (schema : Schema)
    (code : Option Nat) (msg : Option String) :
    parseDataAs (.plain v) schema code msg =
      parseDataAs (.future (.ok v)) schema code msg := rfl
